import Mathlib

/-!
Shallow embedding of the Horust supervision engine core
(`src/horust/mod.rs`, `src/horust/runtime.rs`,
`src/horust/supervisor/reaper.rs`) together with theorems settling the
behavioural claims about it.

Machine integers (exit codes, pids, signal numbers) are modelled as `Int`;
none of the embedded operations can overflow their 32-bit carriers on the
inputs considered, so no modular reduction is needed.  Rust panics are
modelled by `Option`: a function returns `none` exactly on the inputs where
the corresponding Rust code path panics (an `unwrap()` on an error or an
out-of-bounds `remove(0)`).
-/

/-- Service status enumeration.  Declared in the crate's `formats.rs`
(declaration not part of the examined sources); the variant set is the one
used throughout `mod.rs` / `runtime.rs` and listed in the design document:
Initial, ToBeRun, Starting, Running, InKilling, Finished, FinishedFailed,
Failed. -/
inductive ServiceStatus
  | Initial
  | ToBeRun
  | Starting
  | Running
  | InKilling
  | Finished
  | FinishedFailed
  | Failed
  deriving DecidableEq, Repr

/-- Restart strategy enumeration, from the crate's `formats.rs`
(declaration not part of the examined sources; variants are the ones
matched in `ServiceHandler::set_status_by_exit_code`). -/
inductive RestartStrategy
  | Never
  | OnFailure
  | Always
  deriving DecidableEq, Repr

/-- Immutable service definition.  Only the attributes read by the embedded
operations are carried: `name`, `command`, `start_after` and
`restart_strategy`. -/
structure Service where
  name : String
  command : String
  start_after : List String
  restart_strategy : RestartStrategy
  deriving DecidableEq, Repr

/-- Mutable per-service handler (`ServiceHandler` in `mod.rs`): the service
definition, the current status and the optional pid. -/
structure ServiceHandler where
  service : Service
  status : ServiceStatus
  pid : Option Int
  deriving DecidableEq, Repr

/-- `ServiceHandler::from(service)` (`mod.rs`): fresh handler in `Initial`
with no pid. -/
def ServiceHandler.fromService (service : Service) : ServiceHandler :=
  { service := service, status := ServiceStatus.Initial, pid := none }

/-- `ServiceHandler::set_pid` (`mod.rs` lines 63-66): unconditionally sets
`status := Running` and stores the pid. -/
def ServiceHandler.set_pid (sh : ServiceHandler) (pid : Int) : ServiceHandler :=
  { sh with status := ServiceStatus.Running, pid := some pid }

/-- `ServiceHandler::is_running` (`mod.rs` lines 67-69). -/
def ServiceHandler.is_running (sh : ServiceHandler) : Bool :=
  sh.status == ServiceStatus.Running

/-- `ServiceHandler::is_finished` (`mod.rs` lines 70-75): true exactly on
`Finished` and `FinishedFailed`. -/
def ServiceHandler.is_finished (sh : ServiceHandler) : Bool :=
  match sh.status with
  | ServiceStatus.Finished | ServiceStatus.FinishedFailed => true
  | _ => false

/-- `ServiceHandler::set_status_by_exit_code` (`mod.rs` lines 76-101):
folds an exit code into the handler according to the restart strategy and
clears the pid. -/
def ServiceHandler.set_status_by_exit_code (sh : ServiceHandler) (exit_code : Int) :
    ServiceHandler :=
  let has_failed := exit_code != 0
  let status :=
    match sh.service.restart_strategy with
    | RestartStrategy.Never =>
        if has_failed then ServiceStatus.FinishedFailed else ServiceStatus.Finished
    | RestartStrategy.OnFailure =>
        if has_failed then ServiceStatus.Initial else ServiceStatus.Finished
    | RestartStrategy.Always => ServiceStatus.Initial
  { sh with status := status, pid := none }

/-- `check_can_run` (`mod.rs` lines 146-161, closure inside `Horust::run`):
a handler's dependencies allow it to run unless some dependency name
matches a supervised service whose status is neither `Running` nor
`Finished`. -/
def check_can_run (supervised : List ServiceHandler) (dependencies : List String) : Bool :=
  dependencies.all fun service_name =>
    supervised.all fun service =>
      !(service.service.name == service_name
        && (service.status != ServiceStatus.Running
            && service.status != ServiceStatus.Finished))

/-- Runnable-selection condition of the scheduler loop (`mod.rs` lines
163-164): the handler is in `Initial` and `check_can_run` holds of its
`start_after` list. -/
def is_runnable (supervised : List ServiceHandler) (service_handler : ServiceHandler) : Bool :=
  service_handler.status == ServiceStatus.Initial
    && check_can_run supervised service_handler.service.start_after

/-- Runnable-selection predicate as worded by the specification (§4.2
`get_runnable()`): status `Initial` and every `start_after` predecessor in
`{Running, Finished, FinishedFailed}`.  Stated for comparison with
`is_runnable`, which is the embedding of the source. -/
def runnable_per_spec (supervised : List ServiceHandler) (sh : ServiceHandler) : Bool :=
  sh.status == ServiceStatus.Initial
    && sh.service.start_after.all fun dep =>
        supervised.all fun s =>
          !(s.service.name == dep)
            || (s.status == ServiceStatus.Running
                || s.status == ServiceStatus.Finished
                || s.status == ServiceStatus.FinishedFailed)

/-- Loop-termination predicate of the scheduler (`mod.rs` line 187):
every supervised handler `is_finished`. -/
def all_finished (supervised : List ServiceHandler) : Bool :=
  supervised.all fun sh => sh.is_finished

/-- Outcome of a `kill(pid, SIGTERM)` syscall, as distinguished by the
sources: success, the `ESRCH` race (process already gone), or any other
error. -/
inductive KillOutcome
  | ok
  | err_esrch
  | err_other
  deriving DecidableEq, Repr

/-- `Horust::stop_all_services` (`mod.rs` lines 194-208), parametrised by
the outcome of each `kill` call.  For each handler in order: if it has a
pid, `kill(pid, SIGTERM)` is invoked and its error is passed through
`map_err(eprintln).unwrap()` — so any kill error panics, modelled by
`none`; otherwise the handler's status is set to `Finished` (pid is left
untouched).  On success the returned pair carries the rewritten table and
the list of pids that were signalled. -/
def stop_all_services (kill_result : Int → KillOutcome) :
    List ServiceHandler → Option (List ServiceHandler × List Int)
  | [] => some ([], [])
  | service :: rest =>
    match service.pid with
    | some pid =>
      match kill_result pid with
      | KillOutcome.ok =>
        (stop_all_services kill_result rest).map fun r =>
          ({ service with status := ServiceStatus.Finished } :: r.1, pid :: r.2)
      | _ => none
    | none =>
      (stop_all_services kill_result rest).map fun r =>
        ({ service with status := ServiceStatus.Finished } :: r.1, r.2)

/-- Bus event.  Only the variant built by the embedded reaper is carried:
`Event::ServiceExited(name, exit_code)`. -/
inductive Event
  | ServiceExited (name : String) (exit_code : Int)
  deriving DecidableEq, Repr

/-- `Event::new_service_exited` constructor used by
`supervisor/reaper.rs`. -/
def Event.new_service_exited (name : String) (exit_code : Int) : Event :=
  Event.ServiceExited name exit_code

/-- Outcome of one `waitpid(-1, WNOHANG)` call as distinguished by
`supervisor/reaper.rs`: a normal exit, a death by signal, any other
`Ok(...)` wait status, or an error (ECHILD or otherwise — both produce no
event). -/
inductive WaitOutcome
  | exited (pid : Int) (exit_code : Int)
  | signaled (pid : Int) (signal : Int) (core_dumped : Bool)
  | otherStatus
  | errored (is_echild : Bool)
  deriving DecidableEq, Repr

namespace reaper

/-- `reaper::run` (`supervisor/reaper.rs` lines 18-58), parametrised by
the repository's pid lookup (`Repo::get_service_by_pid`) and by the stream
of `waitpid` outcomes, one per iteration.  Each of the first
`max_iterations` outcomes is filter-mapped: `Exited(pid, code)` yields
`(name, code)` when `pid` maps to a service, `Signaled(pid, sig, _)`
yields `(name, -137)` when it does, everything else yields nothing; the
survivors become `ServiceExited` events. -/
def run (get_service_by_pid : Int → Option String) (waits : List WaitOutcome)
    (max_iterations : Nat) : List Event :=
  (((waits.take max_iterations).filterMap fun w =>
    match w with
    | WaitOutcome.exited pid exit_code =>
        (get_service_by_pid pid).map fun s_name => (s_name, exit_code)
    | WaitOutcome.signaled pid _signal _core_dumped =>
        (get_service_by_pid pid).map fun s_name => (s_name, (-137 : Int))
    | _ => none).map fun sc => Event.new_service_exited sc.1 sc.2)

end reaper

/-- Rust's `str::split_whitespace`: split at whitespace, keeping only the
non-empty chunks. -/
def split_whitespace (s : String) : List String :=
  (s.split Char.isWhitespace).filter fun chunk => chunk ≠ ""

/-- Child-side command preparation of `Horust::exec_service`
(`mod.rs` lines 266-282) up to the `execvp` call: the command is split at
whitespace, `chunks.remove(0)` extracts the program name — panicking
(`none`) when there is no first token — and the argv passed to `execvp`
is the program name followed by the remaining tokens. -/
def exec_service (command : String) : Option (String × List String) :=
  match split_whitespace command with
  | [] => none
  | filename :: rest => some (filename, filename :: rest)

/-- Child-side command preparation of the free function `exec_service`
(`runtime.rs` lines 198-215), parametrised by the result of
`shlex::split` on the command: `shlex::split(...).unwrap()` panics
(`none`) when lexing fails, and `chunks.get(0).unwrap()` panics when the
token list is empty; otherwise the program name is the first token. -/
def exec_service_shlexed (shlex_split_result : Option (List String)) : Option String :=
  match shlex_split_result with
  | none => none
  | some chunks => chunks.head?

/-- Concrete service used by the concrete-input theorems below. -/
def serviceA : Service :=
  { name := "a", command := "/bin/a", start_after := [],
    restart_strategy := RestartStrategy.Never }

/-- Concrete service declaring `start_after = [a]`, used by the
concrete-input theorems below. -/
def serviceB : Service :=
  { name := "b", command := "/bin/b", start_after := ["a"],
    restart_strategy := RestartStrategy.Never }

/-- Concrete service with the `Always` restart strategy, used by the
concrete-input theorems below. -/
def serviceAlways : Service :=
  { name := "c", command := "/bin/c", start_after := [],
    restart_strategy := RestartStrategy.Always }

/-- Pid-to-service lookup used by the concrete reaper theorems: pid 5 is
service `a`, every other pid is unknown. -/
def pid_lookup_example : Int → Option String :=
  fun pid => if pid = 5 then some "a" else none

/-- C1: for every handler and exit code (failure iff the code is nonzero),
`set_status_by_exit_code` sets the status according to the restart
strategy — `Never` yields `FinishedFailed` on failure and `Finished` on
success, `OnFailure` yields `Initial` on failure and `Finished` on
success, `Always` yields `Initial` — and in every case clears the pid. -/
theorem set_status_by_exit_code_policy (sh : ServiceHandler) (exit_code : Int) :
    (sh.set_status_by_exit_code exit_code).pid = none ∧
    (sh.set_status_by_exit_code exit_code).status =
      (match sh.service.restart_strategy with
        | RestartStrategy.Never =>
            if exit_code ≠ 0 then ServiceStatus.FinishedFailed else ServiceStatus.Finished
        | RestartStrategy.OnFailure =>
            if exit_code ≠ 0 then ServiceStatus.Initial else ServiceStatus.Finished
        | RestartStrategy.Always => ServiceStatus.Initial) := by
  refine ⟨rfl, ?_⟩
  unfold ServiceHandler.set_status_by_exit_code
  cases h : sh.service.restart_strategy <;> by_cases hc : exit_code = 0 <;> simp [h, hc]

/-- C2 counterexample: `set_status_by_exit_code` has no shutdown
parameter, so during a shutdown it behaves exactly as always; for an
`Always` handler exiting with code 0 it produces `Initial`, which is
neither `Finished` nor `FinishedFailed`. -/
theorem set_status_by_exit_code_shutdown_counterexample :
    ({ service := serviceAlways, status := ServiceStatus.Running, pid := some 3 :
        ServiceHandler }.set_status_by_exit_code 0).status = ServiceStatus.Initial ∧
    ServiceStatus.Initial ≠ ServiceStatus.Finished ∧
    ServiceStatus.Initial ≠ ServiceStatus.FinishedFailed :=
  ⟨rfl, by decide, by decide⟩

/-- C2 amended: the exit fold is independent of any shutdown state, and
the result is a terminal `Finished`/`FinishedFailed` status exactly when
the restart strategy is `Never`, or `OnFailure` with a zero exit code;
under `Always`, or `OnFailure` with a failure, the status becomes
`Initial` even while shutting down. -/
theorem set_status_by_exit_code_terminal_iff (sh : ServiceHandler) (exit_code : Int) :
    ((sh.set_status_by_exit_code exit_code).status = ServiceStatus.Finished ∨
      (sh.set_status_by_exit_code exit_code).status = ServiceStatus.FinishedFailed) ↔
      (sh.service.restart_strategy = RestartStrategy.Never ∨
        (sh.service.restart_strategy = RestartStrategy.OnFailure ∧ exit_code = 0)) := by
  unfold ServiceHandler.set_status_by_exit_code
  cases h : sh.service.restart_strategy <;> by_cases hc : exit_code = 0 <;> simp [h, hc]

/-- C3 counterexample: with predecessor `a` in `FinishedFailed`, the
successor `b` (in `Initial`, `start_after = [a]`) is not selected by the
source's runnable check, while the specification's predicate (which allows
`FinishedFailed` predecessors) selects it. -/
theorem is_runnable_finishedfailed_blocks :
    is_runnable
        [{ service := serviceA, status := ServiceStatus.FinishedFailed, pid := none },
         { service := serviceB, status := ServiceStatus.Initial, pid := none }]
        { service := serviceB, status := ServiceStatus.Initial, pid := none } = false ∧
    runnable_per_spec
        [{ service := serviceA, status := ServiceStatus.FinishedFailed, pid := none },
         { service := serviceB, status := ServiceStatus.Initial, pid := none }]
        { service := serviceB, status := ServiceStatus.Initial, pid := none } = true :=
  ⟨by decide, by decide⟩

/-- C3 amended: the scheduler selects exactly the handlers in `Initial`
all of whose `start_after` predecessors are in `{Running, Finished}`; a
predecessor in `FinishedFailed` (like any other non-Running, non-Finished
status) blocks its successors. -/
theorem is_runnable_iff (supervised : List ServiceHandler) (sh : ServiceHandler) :
    is_runnable supervised sh = true ↔
      (sh.status = ServiceStatus.Initial ∧
        ∀ dep ∈ sh.service.start_after, ∀ s ∈ supervised,
          s.service.name = dep →
            (s.status = ServiceStatus.Running ∨ s.status = ServiceStatus.Finished)) := by
  simp only [is_runnable, check_can_run, Bool.and_eq_true, beq_iff_eq, List.all_eq_true,
    Bool.not_eq_true', Bool.and_eq_false_iff, bne_eq_false_iff_eq, beq_eq_false_iff_ne, ne_eq]
  constructor
  · rintro ⟨hst, hdeps⟩
    refine ⟨hst, fun dep hdep s hs hname => ?_⟩
    rcases hdeps dep hdep s hs with h | h | h
    · exact absurd hname h
    · exact Or.inl h
    · exact Or.inr h
  · rintro ⟨hst, hdeps⟩
    refine ⟨hst, fun dep hdep s hs => ?_⟩
    by_cases hname : s.service.name = dep
    · rcases hdeps dep hdep s hs hname with h | h
      · exact Or.inr (Or.inl h)
      · exact Or.inr (Or.inr h)
    · exact Or.inl hname

/-- C4 counterexample: `stop_all_services` (with every `kill`
succeeding) moves a `Running` handler with a known pid to `Finished`, not
`InKilling`, and rewrites an `InKilling` handler to `Finished` instead of
leaving it unchanged. -/
theorem stop_all_services_claim_counterexample :
    stop_all_services (fun _ => KillOutcome.ok)
        [{ service := serviceA, status := ServiceStatus.Running, pid := some 5 },
         { service := serviceB, status := ServiceStatus.InKilling, pid := some 4 }]
      = some ([{ service := serviceA, status := ServiceStatus.Finished, pid := some 5 },
               { service := serviceB, status := ServiceStatus.Finished, pid := some 4 }],
              [5, 4]) ∧
    ServiceStatus.Finished ≠ ServiceStatus.InKilling :=
  ⟨by decide, by decide⟩

/-- C4 amended: `stop_all_services` sends `SIGTERM` to exactly the
handlers holding a pid (in table order) and sets every handler's status to
`Finished` regardless of its previous status — no handler becomes
`InKilling`, and handlers in terminal or `InKilling` states are rewritten
too; pid fields are left untouched. -/
theorem stop_all_services_sets_finished (table : List ServiceHandler) :
    stop_all_services (fun _ => KillOutcome.ok) table =
      some (table.map fun s => { s with status := ServiceStatus.Finished },
            table.filterMap fun s => s.pid) := by
  induction table with
  | nil => rfl
  | cons s rest ih => cases h : s.pid <;> simp [stop_all_services, h, ih]

/-- C5: evaluation at the failing input — `stop_all_services` on a
`Running` handler with pid 5 yields a handler whose pid is still `some 5`
while its status is `Finished`, violating the invariant
`pid ≠ none → status ∈ {Running, InKilling}`. -/
theorem stop_all_services_pid_invariant_violation :
    stop_all_services (fun _ => KillOutcome.ok)
        [{ service := serviceA, status := ServiceStatus.Running, pid := some 5 }]
      = some ([{ service := serviceA, status := ServiceStatus.Finished, pid := some 5 }], [5]) ∧
    some (5 : Int) ≠ (none : Option Int) ∧
    ServiceStatus.Finished ≠ ServiceStatus.Running ∧
    ServiceStatus.Finished ≠ ServiceStatus.InKilling :=
  ⟨by decide, by decide, by decide, by decide⟩

/-- C6: evaluation at the failing input — `set_pid` on a handler already
in the terminal state `Finished` unconditionally moves it to `Running`
with the new pid, leaving the terminal state within the same run. -/
theorem set_pid_escapes_terminal :
    ({ service := serviceA, status := ServiceStatus.Finished, pid := none :
        ServiceHandler }.set_pid 7)
      = { service := serviceA, status := ServiceStatus.Running, pid := some 7 } ∧
    ServiceStatus.Running ≠ ServiceStatus.Finished ∧
    ServiceStatus.Running ≠ ServiceStatus.FinishedFailed ∧
    ServiceStatus.Running ≠ ServiceStatus.Failed :=
  ⟨by decide, by decide, by decide, by decide⟩

/-- C7 counterexample: for a child of known service `a` (pid 5) killed by
signal 9, the reaper publishes `ServiceExited("a", -137)`, and
`-137 ≠ 128 + 9`. -/
theorem reaper_signaled_counterexample :
    reaper.run pid_lookup_example [WaitOutcome.signaled 5 9 false] 20
      = [Event.ServiceExited "a" (-137)] ∧
    (-137 : Int) ≠ 128 + 9 :=
  ⟨by decide, by decide⟩

/-- C7 amended: for every reaped child that died due to a signal and whose
pid maps to a known service, the reaper publishes
`ServiceExited(name, -137)` — a fixed code that does not depend on which
signal killed the child (no event is published for unknown pids). -/
theorem reaper_signaled_emits_fixed_code (get_service_by_pid : Int → Option String)
    (pid signal : Int) (core_dumped : Bool) :
    reaper.run get_service_by_pid [WaitOutcome.signaled pid signal core_dumped] 20 =
      ((get_service_by_pid pid).map fun s_name =>
        Event.ServiceExited s_name (-137)).toList := by
  cases h : get_service_by_pid pid <;>
    simp [reaper.run, h, Event.new_service_exited]

/-- C8: evaluation at the failing input — when the `kill` for the first
(`Running`, pid 7) handler fails with `ESRCH`, `stop_all_services`
panics (the `map_err(eprintln).unwrap()` chain unwraps an `Err`), so the
walk aborts (`none`) instead of continuing to the remaining handlers. -/
theorem stop_all_services_esrch_panics :
    stop_all_services (fun _ => KillOutcome.err_esrch)
        [{ service := serviceA, status := ServiceStatus.Running, pid := some 7 },
         { service := serviceB, status := ServiceStatus.Initial, pid := none }]
      = none :=
  by decide

/-- Helper: `is_finished` holds exactly on `Finished` and
`FinishedFailed`. -/
theorem is_finished_eq_true (sh : ServiceHandler) :
    sh.is_finished = true ↔
      (sh.status = ServiceStatus.Finished ∨ sh.status = ServiceStatus.FinishedFailed) := by
  unfold ServiceHandler.is_finished
  cases h : sh.status <;> simp

/-- C9 counterexample: a handler in `Failed` is in the claimed terminal
set `{Finished, FinishedFailed, Failed}`, yet the loop-exit predicate
`all_finished` is false on the singleton table, so the loop keeps
running. -/
theorem all_finished_failed_counterexample :
    all_finished [{ service := serviceA, status := ServiceStatus.Failed, pid := none }] = false ∧
    (ServiceStatus.Failed = ServiceStatus.Finished ∨
      ServiceStatus.Failed = ServiceStatus.FinishedFailed ∨
      ServiceStatus.Failed = ServiceStatus.Failed) :=
  ⟨by decide, by decide⟩

/-- C9 amended: the loop-exit predicate `all_finished` is true exactly
when every handler is in `{Finished, FinishedFailed}`; a handler stuck in
`Failed` keeps the loop running. -/
theorem all_finished_iff (supervised : List ServiceHandler) :
    all_finished supervised = true ↔
      ∀ sh ∈ supervised,
        sh.status = ServiceStatus.Finished ∨ sh.status = ServiceStatus.FinishedFailed := by
  unfold all_finished
  rw [List.all_eq_true]
  exact forall₂_congr fun sh _ => is_finished_eq_true sh

/-- C10: the child-side exec path is partial on the command exactly as
claimed — the `mod.rs` variant panics on extracting the first token if and
only if whitespace-splitting the command yields no word (e.g. the empty
command), and the `runtime.rs` shlex variant panics if and only if shell
lexing fails (e.g. an unclosed quote) or yields no word; with at least one
token, both reach the `execvp` preparation. -/
theorem exec_service_panics_iff :
    (∀ command : String,
      exec_service command = none ↔ split_whitespace command = []) ∧
    (∀ r : Option (List String),
      exec_service_shlexed r = none ↔ (r = none ∨ r = some [])) := by
  constructor
  · intro command
    unfold exec_service
    cases h : split_whitespace command <;> simp [h]
  · intro r
    cases r with
    | none => simp [exec_service_shlexed]
    | some chunks => cases chunks <;> simp [exec_service_shlexed]
